import Mathlib

/-!
Shallow embedding of the credential-lifecycle / retry core and the IAM
role reconciler of the AWS-Support-Case-Agent repository.

Files embedded:
  * src/Agent/support_case_agent.py  (run_with_retry, _run_once,
    refresh_token, create_streamable_http_transport, strands_agent_bedrock)
  * src/Agent/aws_setup.py           (get_or_create_role and helpers)
  * src/MCP/aws_setup.py             (get_or_create_role and helpers)

External systems (Secrets Manager, SSM, Cognito, IAM, the MCP streaming
endpoint) are modelled as explicit state / behaviour parameters; JSON
documents are modelled structurally (a stored document stands for its
serialization).
-/

namespace SupportCaseAgent

/-- A JSON-ish value: strings, arrays and objects, which is all the
repository's documents use. An object is a list of key/value fields
(Python dicts have unique keys; field order is kept). -/
inductive JVal where
  | str (s : String)
  | arr (xs : List JVal)
  | obj (fields : List (String × JVal))
deriving Repr

/-- Look up a key in a JSON object's field list (Python `d[k]` read). -/
def jlookup (fields : List (String × JVal)) (k : String) : Option JVal :=
  match fields with
  | [] => none
  | (k', v) :: rest => if k' = k then some v else jlookup rest k

/-- Python `d[k] = v` on a dict: replace the value at `k` if the key is
present (keys are unique in a parsed JSON document), else append. -/
def jset (fields : List (String × JVal)) (k : String) (v : JVal) :
    List (String × JVal) :=
  match fields with
  | [] => [(k, v)]
  | (k', v') :: rest =>
      if k' = k then (k', v) :: rest else (k', v') :: jset rest k v

/-- Read a string-valued field, `none` if absent or not a string. -/
def jlookupStr (fields : List (String × JVal)) (k : String) : Option String :=
  match jlookup fields k with
  | some (JVal.str s) => some s
  | _ => none

/-- Key lookup in an association list with string keys (the way the
reconciler's external stores are indexed). -/
def lookupKey {α : Type} (l : List (String × α)) (k : String) : Option α :=
  match l with
  | [] => none
  | (k', v) :: rest => if k' = k then some v else lookupKey rest k

/-- `needle` occurs as a contiguous substring of `hay` (char lists). -/
def containsSub (needle hay : List Char) : Bool :=
  hay.tails.any (fun t => needle.isPrefixOf t)

/-- Python `s.lower()` on the ASCII range used by the error messages. -/
def lowerStr (s : String) : String :=
  String.mk (s.toList.map Char.toLower)

/-- Embeds the classification test of `run_with_retry`
(src/Agent/support_case_agent.py line 141):
`"client initialization failed" in err_msg.lower()`. -/
def isCredExpired (err_msg : String) : Bool :=
  containsSub "client initialization failed".toList (lowerStr err_msg).toList

/-- The external world the agent process reads and writes:
the SSM parameter holding the agent ARN and the Secrets Manager
document under the fixed secret key
`support_mcp_server/cognito/credentials`. `none` models an absent
parameter/secret (the corresponding AWS read raises). -/
structure Env where
  region : String
  agent_arn : Option String
  secret : Option (List (String × JVal))
deriving Repr

/-- The token issuer (Cognito `initiate_auth` with USER_PASSWORD_AUTH):
given client_id, username and password it returns a fresh access token
or an authentication error message. -/
def Issuer := String → String → String → Except String String

/-- Percent-encoding of the agent ARN done inline in
`create_streamable_http_transport`:
`agent_arn.replace(':', '%3A').replace('/', '%2F')`. -/
def encodeArn (s : String) : String :=
  String.mk ((s.toList.map fun c =>
    if c = ':' then "%3A".toList
    else if c = '/' then "%2F".toList
    else [c]).flatten)

/-- The transport descriptor built per attempt: the MCP endpoint URL plus
the headers dict. -/
structure Transport where
  mcp_url : String
  authorization : String
  content_type : String
deriving Repr, DecidableEq

/-- Embeds `create_streamable_http_transport`
(src/Agent/support_case_agent.py lines 184-211): reads the agent ARN
from SSM and the current bearer token from the secret store at call
time, percent-encodes the ARN and assembles URL and headers. Any read
failure propagates as an error (the Python code re-raises). -/
def create_streamable_http_transport (env : Env) : Except String Transport :=
  match env.agent_arn with
  | none => Except.error "ParameterNotFound"
  | some agent_arn =>
    match env.secret with
    | none => Except.error "ResourceNotFoundException"
    | some doc =>
      match jlookupStr doc "bearer_token" with
      | none => Except.error "KeyError: bearer_token"
      | some bearer_token =>
        let encoded := encodeArn agent_arn
        Except.ok
          { mcp_url := "https://bedrock-agentcore." ++ env.region ++
              ".amazonaws.com/runtimes/" ++ encoded ++
              "/invocations?qualifier=DEFAULT"
            authorization := "Bearer " ++ bearer_token
            content_type := "application/json" }

/-- Embeds `refresh_token` (src/Agent/support_case_agent.py lines
156-182): read the secret document, extract client_id and the
username/password auth parameters, call the token issuer, overwrite the
`bearer_token` field of the document and write the whole document back
under the same key. Returns the updated environment, or the error that
was raised (the Python code re-raises every failure). -/
def refresh_token (issuer : Issuer) (env : Env) : Except String Env :=
  match env.secret with
  | none => Except.error "ResourceNotFoundException"
  | some secret_data =>
    match jlookupStr secret_data "client_id" with
    | none => Except.error "KeyError: client_id"
    | some client_id =>
      match jlookup secret_data "AuthParameters" with
      | some (JVal.obj auth_params) =>
        match jlookupStr auth_params "USERNAME", jlookupStr auth_params "PASSWORD" with
        | some username, some password =>
          match issuer client_id username password with
          | Except.error e => Except.error e
          | Except.ok refreshed_bearer_token =>
            Except.ok { env with
              secret := some (jset secret_data "bearer_token"
                (JVal.str refreshed_bearer_token)) }
        | _, _ => Except.error "KeyError: AuthParameters"
      | _ => Except.error "KeyError: AuthParameters"

/-- One engine attempt's observable behaviour over a given transport:
the chunks it yields before either finishing cleanly
(`failure = none`) or raising an error with the given message. -/
structure EngineRun where
  chunks : List String
  failure : Option String
deriving Repr, DecidableEq

/-- The remote streaming behaviour: for an attempt index and the
transport used, what the session yields. The index captures that the
remote side may behave differently on the retried attempt. -/
def Engine := Nat → Transport → EngineRun

/-- Embeds `_run_once` (src/Agent/support_case_agent.py lines 104-127):
build the transport (reading the current env), open the session and
stream; returns the chunks yielded before completion and the failure
message if the attempt raised. A transport-build failure yields no
chunks and surfaces that error. -/
def _run_once (env : Env) (engine : Engine) (attempt : Nat) :
    List String × Option String :=
  match create_streamable_http_transport env with
  | Except.error e => ([], some e)
  | Except.ok t =>
    let r := engine attempt t
    (r.chunks, r.failure)

/-- An item of the caller-visible output stream: a `{"data": ...}` chunk
or an error-tagged terminal item `{"error": msg, "type": ty}`. -/
inductive Item where
  | data (s : String)
  | error (msg ty : String)
deriving Repr, DecidableEq

def Item.isData : Item → Bool
  | Item.data _ => true
  | Item.error _ _ => false

/-- Full observable record of one `run_with_retry` call. -/
structure RunResult where
  /-- Items yielded to the caller, in order. -/
  output : List Item
  /-- How many times `refresh_token` was invoked. -/
  refreshCalls : Nat
  /-- How many `_run_once` invocation attempts were started. -/
  attempts : Nat
  /-- The transport of each attempt whose build succeeded, in order. -/
  transports : List Transport
  /-- The environment (secret store) after the run. -/
  envAfter : Env

/-- Records what one attempt contributed to the transports list. -/
def attemptTransport (env : Env) : List Transport :=
  match create_streamable_http_transport env with
  | Except.error _ => []
  | Except.ok t => [t]

/-- Embeds `run_with_retry` (src/Agent/support_case_agent.py lines
130-152): run attempt 1, yielding its chunks as they arrive; on an
exception, classify it; if credential-expired, call `refresh_token` and
run attempt 2 (yielding its chunks), turning any failure of the refresh
or of attempt 2 into one terminal `stream_error` item; otherwise emit
one terminal `stream_error` item with the original message. -/
def run_with_retry (env : Env) (issuer : Issuer) (engine : Engine) :
    RunResult :=
  let (chunks1, fail1) := _run_once env engine 0
  let t1 := attemptTransport env
  match fail1 with
  | none =>
      { output := chunks1.map Item.data, refreshCalls := 0, attempts := 1
        transports := t1, envAfter := env }
  | some err_msg =>
    if isCredExpired err_msg then
      match refresh_token issuer env with
      | Except.error e2 =>
          { output := chunks1.map Item.data ++ [Item.error e2 "stream_error"]
            refreshCalls := 1, attempts := 1, transports := t1
            envAfter := env }
      | Except.ok env2 =>
        let (chunks2, fail2) := _run_once env2 engine 1
        let t2 := attemptTransport env2
        match fail2 with
        | none =>
            { output := chunks1.map Item.data ++ chunks2.map Item.data
              refreshCalls := 1, attempts := 2, transports := t1 ++ t2
              envAfter := env2 }
        | some e2 =>
            { output := chunks1.map Item.data ++ chunks2.map Item.data ++
                [Item.error e2 "stream_error"]
              refreshCalls := 1, attempts := 2, transports := t1 ++ t2
              envAfter := env2 }
    else
      { output := chunks1.map Item.data ++ [Item.error err_msg "stream_error"]
        refreshCalls := 0, attempts := 1, transports := t1, envAfter := env }

/-- Number of error-tagged items in an output stream. -/
def countErrors (out : List Item) : Nat :=
  (out.filter fun i => !i.isData).length

end SupportCaseAgent

namespace SupportCaseAgent

namespace Iam

/-- An IAM role as the reconciler observes it: its ARN, trust document,
inline policies (name → document) and attached managed policy ARNs. -/
structure Role where
  arn : String
  assume_policy : JVal
  inline_policies : List (String × JVal)
  attached_managed : List String
deriving Repr

/-- The external IAM store: role name → role. -/
structure State where
  roles : List (String × Role)
deriving Repr

/-- Deterministic ARN of a role (IAM assigns
`arn:aws:iam::<account>:role/<name>`). -/
def arnOf (account_id role_name : String) : String :=
  "arn:aws:iam::" ++ account_id ++ ":role/" ++ role_name

/-- `iam.get_role`: returns the role or raises `NoSuchEntity`. -/
def get_role (st : State) (role_name : String) : Except String Role :=
  match lookupKey st.roles role_name with
  | some r => Except.ok r
  | none => Except.error "NoSuchEntity"

/-- `iam.create_role`: creates a fresh role with the given trust document
(no inline or managed policies yet) or raises `EntityAlreadyExists`. -/
def create_role (st : State) (account_id role_name : String)
    (assume_policy : JVal) : Except String (State × Role) :=
  match lookupKey st.roles role_name with
  | some _ => Except.error "EntityAlreadyExists"
  | none =>
    let r : Role :=
      { arn := arnOf account_id role_name, assume_policy := assume_policy
        inline_policies := [], attached_managed := [] }
    Except.ok ({ roles := (role_name, r) :: st.roles }, r)

/-- Apply `f` to the named role, if present. -/
def updateRole (st : State) (role_name : String) (f : Role → Role) : State :=
  { roles := st.roles.map fun p =>
      (p.1, if p.1 = role_name then f p.2 else p.2) }

/-- `iam.put_role_policy`: create-or-replace the named inline policy
document on the role, wholesale; raises `NoSuchEntity` if the role is
absent. -/
def put_role_policy (st : State) (role_name policy_name : String)
    (doc : JVal) : Except String State :=
  match lookupKey st.roles role_name with
  | none => Except.error "NoSuchEntity"
  | some _ => Except.ok (updateRole st role_name fun r =>
      { r with inline_policies := jset r.inline_policies policy_name doc })

/-- `iam.list_role_policies` called with `MaxItems`: the names of the
role's inline policies, truncated to the first `max_items` entries; the
callers in this repository ignore the truncation marker and never
paginate. -/
def list_role_policies (st : State) (role_name : String) (max_items : Nat) :
    List String :=
  match lookupKey st.roles role_name with
  | some r => (r.inline_policies.map Prod.fst).take max_items
  | none => []

/-- `iam.delete_role_policy`: remove one inline policy from the role. -/
def delete_role_policy (st : State) (role_name policy_name : String) :
    State :=
  updateRole st role_name fun r =>
    { r with inline_policies :=
        r.inline_policies.filter fun p => p.1 ≠ policy_name }

/-- `iam.delete_role`: removes the role. AWS refuses to delete a role
that still has inline policies or attached managed policies and raises
`DeleteConflict`; an absent role raises `NoSuchEntity`. -/
def delete_role (st : State) (role_name : String) : Except String State :=
  match lookupKey st.roles role_name with
  | none => Except.error "NoSuchEntity"
  | some r =>
    if r.inline_policies.isEmpty && r.attached_managed.isEmpty then
      Except.ok { roles := st.roles.filter fun p => p.1 ≠ role_name }
    else Except.error "DeleteConflict"

/-- `iam.attach_role_policy`: attach a managed policy ARN to the role. -/
def attach_role_policy (st : State) (role_name policy_arn : String) :
    State :=
  updateRole st role_name fun r =>
    { r with attached_managed := r.attached_managed ++ [policy_arn] }

end Iam

/-- `ROLE_NAME_TEMPLATE.format(agent_name=...)`, the template
`agentcore-{agent_name}-role` shared by both setup modules. -/
def roleNameOf (agent_name : String) : String :=
  "agentcore-" ++ agent_name ++ "-role"

namespace AgentSetup

/-- Embeds `_get_role_policy` of src/Agent/aws_setup.py (lines 26-181).
The document ignores all three arguments (every Resource is `"*"`). -/
def getRolePolicy (_region _account_id _agent_name : String) : JVal :=
  open JVal in
  obj [("Version", str "2012-10-17"),
    ("Statement", arr [
      obj [("Sid", str "ECRImageAccess"), ("Effect", str "Allow"),
        ("Action", arr [str "ecr:BatchGetImage",
          str "ecr:GetDownloadUrlForLayer", str "ecr:GetAuthorizationToken"]),
        ("Resource", str "*")],
      obj [("Sid", str "SecretsManagerAccess"), ("Effect", str "Allow"),
        ("Action", arr [str "secretsmanager:GetSecretValue",
          str "secretsmanager:DescribeSecret", str "secretsmanager:UpdateSecret",
          str "secretsmanager:CreateSecret"]),
        ("Resource", str "*")],
      obj [("Sid", str "SSMParameterAccess"), ("Effect", str "Allow"),
        ("Action", arr [str "ssm:GetParameter", str "ssm:GetParameters",
          str "ssm:PutParameter"]),
        ("Resource", str "*")],
      obj [("Sid", str "SupportAPIAccess"), ("Effect", str "Allow"),
        ("Action", arr [str "support:*"]), ("Resource", str "*")],
      obj [("Effect", str "Allow"),
        ("Action", arr [str "logs:DescribeLogStreams", str "logs:CreateLogGroup",
          str "logs:CreateLogStream", str "logs:PutLogEvents",
          str "logs:DescribeLogGroups"]),
        ("Resource", str "*")],
      obj [("Effect", str "Allow"),
        ("Action", arr [str "xray:PutTraceSegments",
          str "xray:PutTelemetryRecords", str "xray:GetSamplingRules",
          str "xray:GetSamplingTargets"]),
        ("Resource", str "*")],
      obj [("Effect", str "Allow"), ("Resource", str "*"),
        ("Action", str "cloudwatch:PutMetricData"),
        ("Condition", obj [("StringEquals",
          obj [("cloudwatch:namespace", str "bedrock-agentcore")])])],
      obj [("Sid", str "BedrockAgentCoreRuntime"), ("Effect", str "Allow"),
        ("Action", arr [str "bedrock-agentcore:InvokeAgentRuntime"]),
        ("Resource", str "*")],
      obj [("Sid", str "BedrockAgentCoreMemoryCreateMemory"),
        ("Effect", str "Allow"),
        ("Action", arr [str "bedrock-agentcore:CreateMemory"]),
        ("Resource", str "*")],
      obj [("Sid", str "BedrockAgentCoreMemory"), ("Effect", str "Allow"),
        ("Action", arr [str "bedrock-agentcore:CreateEvent",
          str "bedrock-agentcore:GetEvent", str "bedrock-agentcore:GetMemory",
          str "bedrock-agentcore:GetMemoryRecord",
          str "bedrock-agentcore:ListActors", str "bedrock-agentcore:ListEvents",
          str "bedrock-agentcore:ListMemoryRecords",
          str "bedrock-agentcore:ListSessions",
          str "bedrock-agentcore:DeleteEvent",
          str "bedrock-agentcore:DeleteMemoryRecord",
          str "bedrock-agentcore:RetrieveMemoryRecords"]),
        ("Resource", str "*")],
      obj [("Sid", str "BedrockAgentCoreIdentityGetResourceApiKey"),
        ("Effect", str "Allow"),
        ("Action", arr [str "bedrock-agentcore:GetResourceApiKey"]),
        ("Resource", str "*")],
      obj [("Sid", str "BedrockAgentCoreIdentityGetResourceOauth2Token"),
        ("Effect", str "Allow"),
        ("Action", arr [str "bedrock-agentcore:GetResourceOauth2Token"]),
        ("Resource", str "*")],
      obj [("Sid", str "BedrockAgentCoreIdentityGetWorkloadAccessToken"),
        ("Effect", str "Allow"),
        ("Action", arr [str "bedrock-agentcore:GetWorkloadAccessToken",
          str "bedrock-agentcore:GetWorkloadAccessTokenForJWT",
          str "bedrock-agentcore:GetWorkloadAccessTokenForUserId"]),
        ("Resource", str "*")],
      obj [("Sid", str "BedrockModelInvocation"), ("Effect", str "Allow"),
        ("Action", arr [str "bedrock:InvokeModel",
          str "bedrock:InvokeModelWithResponseStream",
          str "bedrock:ApplyGuardrail"]),
        ("Resource", str "*")]])]

/-- Embeds `_get_assume_role_policy` of src/Agent/aws_setup.py
(lines 184-209). -/
def getAssumeRolePolicy (region account_id : String) : JVal :=
  open JVal in
  obj [("Version", str "2012-10-17"),
    ("Statement", arr [
      obj [("Effect", str "Allow"),
        ("Principal", obj [("Service", str "bedrock-agentcore.amazonaws.com")]),
        ("Action", str "sts:AssumeRole"),
        ("Condition", obj [
          ("StringEquals", obj [("aws:SourceAccount", str account_id)]),
          ("ArnLike", obj [("aws:SourceArn",
            str ("arn:aws:bedrock-agentcore:" ++ region ++ ":" ++
              account_id ++ ":*"))])])]])]

/-- Embeds `get_existing_role_arn` of src/Agent/aws_setup.py (lines
212-230): `get_role`, mapping `NoSuchEntity` to `None`. -/
def get_existing_role_arn (st : Iam.State) (agent_name : String) :
    Option String :=
  match Iam.get_role st (roleNameOf agent_name) with
  | Except.ok role => some role.arn
  | Except.error _ => none

/-- Embeds `create_agentcore_role` of src/Agent/aws_setup.py (lines
233-276): create the role with the desired trust document and put the
inline policy; if creation raises `EntityAlreadyExists`, re-fetch the
existing role and return it as success. -/
def create_agentcore_role (st : Iam.State)
    (region account_id agent_name : String) :
    Except String (Iam.State × Iam.Role) :=
  let role_name := roleNameOf agent_name
  let role_policy := getRolePolicy region account_id agent_name
  let assume_role_policy := getAssumeRolePolicy region account_id
  match Iam.create_role st account_id role_name assume_role_policy with
  | Except.ok (st1, role) =>
    let policy_name := "AgentExecutionPolicy-" ++ agent_name
    match Iam.put_role_policy st1 role_name policy_name role_policy with
    | Except.ok st2 => Except.ok (st2, role)
    | Except.error e => Except.error e
  | Except.error e =>
    if e = "EntityAlreadyExists" then
      match Iam.get_role st role_name with
      | Except.ok role => Except.ok (st, role)
      | Except.error e2 => Except.error e2
    else Except.error e

/-- Embeds `ensure_role_policy_updated` of src/Agent/aws_setup.py (lines
279-299): put the expected inline policy document onto the role,
keyed by `AgentExecutionPolicy-<agent_name>`. -/
def ensure_role_policy_updated (st : Iam.State)
    (region account_id role_name agent_name : String) :
    Except String Iam.State :=
  let expected_policy := getRolePolicy region account_id agent_name
  let policy_name := "AgentExecutionPolicy-" ++ agent_name
  Iam.put_role_policy st role_name policy_name expected_policy

/-- Embeds `get_or_create_role` of src/Agent/aws_setup.py (lines
301-324): if the role exists, refresh its inline policy and return its
ARN; otherwise create it. -/
def get_or_create_role (st : Iam.State)
    (region account_id agent_name : String) :
    Except String (Iam.State × String) :=
  let role_name := roleNameOf agent_name
  match get_existing_role_arn st agent_name with
  | some existing_arn =>
    match ensure_role_policy_updated st region account_id role_name agent_name with
    | Except.ok st2 => Except.ok (st2, existing_arn)
    | Except.error e => Except.error e
  | none =>
    match create_agentcore_role st region account_id agent_name with
    | Except.ok (st2, role) => Except.ok (st2, role.arn)
    | Except.error e => Except.error e

end AgentSetup

end SupportCaseAgent

namespace SupportCaseAgent

namespace McpSetup

/-- Modelled from the spec: `AWS_SUPPORT_ACCESS_MANAGED_POLICY_ARN` is
imported from `config` by src/MCP/aws_setup.py but the provided
src/MCP/config.py does not define it; the spec only requires "any
required managed policies" to be attached, so the constant's concrete
value is immaterial here. -/
def AWS_SUPPORT_ACCESS_MANAGED_POLICY_ARN : String :=
  "arn:aws:iam::aws:policy/AWSSupportAccess"

/-- `POLICY_NAME` of src/MCP/config.py. -/
def POLICY_NAME : String := "AgentCorePolicy"

/-- `MAX_POLICIES_TO_LIST` of src/MCP/config.py. -/
def MAX_POLICIES_TO_LIST : Nat := 100

/-- Embeds `_get_role_policy` of src/MCP/aws_setup.py (lines 181-280). -/
def getRolePolicy (region account_id agent_name : String) : JVal :=
  open JVal in
  obj [("Version", str "2012-10-17"),
    ("Statement", arr [
      obj [("Sid", str "BedrockPermissions"), ("Effect", str "Allow"),
        ("Action", arr [str "bedrock:InvokeModel",
          str "bedrock:InvokeModelWithResponseStream"]),
        ("Resource", str "*")],
      obj [("Sid", str "ECRImageAccess"), ("Effect", str "Allow"),
        ("Action", arr [str "ecr:BatchGetImage",
          str "ecr:GetDownloadUrlForLayer", str "ecr:GetAuthorizationToken"]),
        ("Resource", arr [str ("arn:aws:ecr:" ++ region ++ ":" ++
          account_id ++ ":repository/*")])],
      obj [("Effect", str "Allow"),
        ("Action", arr [str "logs:DescribeLogStreams",
          str "logs:CreateLogGroup"]),
        ("Resource", arr [str ("arn:aws:logs:" ++ region ++ ":" ++
          account_id ++ ":log-group:/aws/bedrock-agentcore/runtimes/*")])],
      obj [("Effect", str "Allow"),
        ("Action", arr [str "logs:DescribeLogGroups"]),
        ("Resource", arr [str ("arn:aws:logs:" ++ region ++ ":" ++
          account_id ++ ":log-group:*")])],
      obj [("Effect", str "Allow"),
        ("Action", arr [str "logs:CreateLogStream", str "logs:PutLogEvents"]),
        ("Resource", arr [str ("arn:aws:logs:" ++ region ++ ":" ++
          account_id ++
          ":log-group:/aws/bedrock-agentcore/runtimes/*:log-stream:*")])],
      obj [("Sid", str "ECRTokenAccess"), ("Effect", str "Allow"),
        ("Action", arr [str "ecr:GetAuthorizationToken"]),
        ("Resource", str "*")],
      obj [("Effect", str "Allow"),
        ("Action", arr [str "xray:PutTraceSegments",
          str "xray:PutTelemetryRecords", str "xray:GetSamplingRules",
          str "xray:GetSamplingTargets"]),
        ("Resource", arr [str "*"])],
      obj [("Effect", str "Allow"), ("Resource", str "*"),
        ("Action", str "cloudwatch:PutMetricData"),
        ("Condition", obj [("StringEquals",
          obj [("cloudwatch:namespace", str "bedrock-agentcore")])])],
      obj [("Sid", str "GetAgentAccessToken"), ("Effect", str "Allow"),
        ("Action", arr [str "bedrock-agentcore:GetWorkloadAccessToken",
          str "bedrock-agentcore:GetWorkloadAccessTokenForJWT",
          str "bedrock-agentcore:GetWorkloadAccessTokenForUserId"]),
        ("Resource", arr [
          str ("arn:aws:bedrock-agentcore:" ++ region ++ ":" ++ account_id ++
            ":workload-identity-directory/default"),
          str ("arn:aws:bedrock-agentcore:" ++ region ++ ":" ++ account_id ++
            ":workload-identity-directory/default/workload-identity/" ++
            agent_name ++ "-*")])]])]

/-- Embeds `_get_assume_role_policy` of src/MCP/aws_setup.py
(lines 283-309). -/
def getAssumeRolePolicy (region account_id : String) : JVal :=
  open JVal in
  obj [("Version", str "2012-10-17"),
    ("Statement", arr [
      obj [("Sid", str "AssumeRolePolicy"), ("Effect", str "Allow"),
        ("Principal", obj [("Service", str "bedrock-agentcore.amazonaws.com")]),
        ("Action", str "sts:AssumeRole"),
        ("Condition", obj [
          ("StringEquals", obj [("aws:SourceAccount", str account_id)]),
          ("ArnLike", obj [("aws:SourceArn",
            str ("arn:aws:bedrock-agentcore:" ++ region ++ ":" ++
              account_id ++ ":*"))])])]])]

/-- Embeds `_cleanup_existing_role` of src/MCP/aws_setup.py (lines
312-332): delete the inline policies returned by one
`list_role_policies` page (at most `MAX_POLICIES_TO_LIST`), then delete
the role itself. The final `delete_role` raises `DeleteConflict` —
uncaught by any caller — when the role still has inline policies beyond
the listed page or any attached managed policy (which this function
never detaches). -/
def _cleanup_existing_role (st : Iam.State) (role_name : String) :
    Except String Iam.State :=
  let policy_names :=
    Iam.list_role_policies st role_name MAX_POLICIES_TO_LIST
  let st1 := policy_names.foldl
    (fun s policy_name => Iam.delete_role_policy s role_name policy_name) st
  Iam.delete_role st1 role_name

/-- Embeds `_add_managed_policy_to_role` of src/MCP/aws_setup.py (lines
335-366): attach the managed policy unless it is already attached. -/
def _add_managed_policy_to_role (st : Iam.State)
    (role_name policy_arn : String) : Except String Iam.State :=
  match Iam.get_role st role_name with
  | Except.error e => Except.error e
  | Except.ok role =>
    if role.attached_managed.contains policy_arn then Except.ok st
    else Except.ok (Iam.attach_role_policy st role_name policy_arn)

/-- Embeds `create_agentcore_role` of src/MCP/aws_setup.py (lines
369-417): create the role; if it already exists, delete it (and its
inline policies) and recreate it; then put the inline policy and ensure
the managed policy is attached. -/
def create_agentcore_role (st : Iam.State)
    (region account_id agent_name : String) :
    Except String (Iam.State × Iam.Role) :=
  let role_name := roleNameOf agent_name
  let role_policy := getRolePolicy region account_id agent_name
  let assume_role_policy := getAssumeRolePolicy region account_id
  let finish : Iam.State → Iam.Role → Except String (Iam.State × Iam.Role) :=
    fun st1 role =>
      match Iam.put_role_policy st1 role_name POLICY_NAME role_policy with
      | Except.error e => Except.error e
      | Except.ok st2 =>
        match _add_managed_policy_to_role st2 role_name
            AWS_SUPPORT_ACCESS_MANAGED_POLICY_ARN with
        | Except.error e => Except.error e
        | Except.ok st3 => Except.ok (st3, role)
  match Iam.create_role st account_id role_name assume_role_policy with
  | Except.ok (st1, role) => finish st1 role
  | Except.error _ =>
    match _cleanup_existing_role st role_name with
    | Except.error e => Except.error e
    | Except.ok st0 =>
      match Iam.create_role st0 account_id role_name assume_role_policy with
      | Except.ok (st1, role) => finish st1 role
      | Except.error e => Except.error e

/-- Embeds `get_existing_role_arn` of src/MCP/aws_setup.py (lines
420-436). -/
def get_existing_role_arn (st : Iam.State) (agent_name : String) :
    Option String :=
  match Iam.get_role st (roleNameOf agent_name) with
  | Except.ok role => some role.arn
  | Except.error _ => none

/-- Embeds `get_or_create_role` of src/MCP/aws_setup.py (lines 439-458):
if the role exists, return its ARN unchanged; otherwise create it. -/
def get_or_create_role (st : Iam.State)
    (region account_id agent_name : String) :
    Except String (Iam.State × String) :=
  match get_existing_role_arn st agent_name with
  | some existing_arn => Except.ok (st, existing_arn)
  | none =>
    match create_agentcore_role st region account_id agent_name with
    | Except.ok (st2, role) => Except.ok (st2, role.arn)
    | Except.error e => Except.error e

end McpSetup

end SupportCaseAgent


namespace SupportCaseAgent

theorem jlookup_jset_self (fields : List (String × JVal)) (k : String)
    (v : JVal) : jlookup (jset fields k v) k = some v := by
  induction fields with
  | nil => simp [jset, jlookup]
  | cons p rest ih =>
    rcases p with ⟨k', v'⟩
    by_cases h : k' = k
    · simp [jset, jlookup, h]
    · simp [jset, jlookup, h, ih]

theorem jlookup_jset_ne (fields : List (String × JVal)) (k k' : String)
    (v : JVal) (h : k' ≠ k) :
    jlookup (jset fields k v) k' = jlookup fields k' := by
  induction fields with
  | nil => simp [jset, jlookup, Ne.symm h]
  | cons p rest ih =>
    rcases p with ⟨k0, v0⟩
    by_cases h0 : k0 = k
    · subst h0
      simp [jset, jlookup, Ne.symm h]
    · simp [jset, jlookup, h0, ih]

theorem lookupKey_map_update {α : Type} (l : List (String × α)) (n : String)
    (f : α → α) :
    lookupKey (l.map fun p => (p.1, if p.1 = n then f p.2 else p.2)) n =
      (lookupKey l n).map f := by
  induction l with
  | nil => rfl
  | cons p rest ih =>
    rcases p with ⟨k, v⟩
    by_cases h : k = n
    · subst h
      simp [lookupKey, ih]
    · simp [lookupKey, h, ih]

theorem lookup_updateRole (st : Iam.State) (n : String)
    (f : Iam.Role → Iam.Role) :
    lookupKey (Iam.updateRole st n f).roles n =
      (lookupKey st.roles n).map f := by
  unfold Iam.updateRole
  exact lookupKey_map_update st.roles n f

theorem lookupKey_filter_ne {α : Type} (l : List (String × α)) (n : String) :
    lookupKey (l.filter fun p => p.1 ≠ n) n = none := by
  induction l with
  | nil => rfl
  | cons p rest ih =>
    rcases p with ⟨k, v⟩
    by_cases h : k = n
    · simpa [List.filter_cons, h] using ih
    · simpa [List.filter_cons, h, lookupKey] using ih

theorem lookup_delete_role_ok (st : Iam.State) (n : String)
    (st' : Iam.State) (h : Iam.delete_role st n = Except.ok st') :
    lookupKey st'.roles n = none := by
  unfold Iam.delete_role at h
  cases hl : lookupKey st.roles n with
  | none =>
    simp only [hl] at h
    exact Except.noConfusion h
  | some r =>
    simp only [hl] at h
    by_cases hc : (r.inline_policies.isEmpty &&
        r.attached_managed.isEmpty) = true
    · rw [if_pos hc] at h
      injection h with h2
      rw [← h2]
      exact lookupKey_filter_ne st.roles n
    · rw [if_neg hc] at h
      exact Except.noConfusion h

theorem countErrors_map_data (l : List String) :
    countErrors (l.map Item.data) = 0 := by
  simp [countErrors, List.filter_map, Item.isData, Function.comp]

theorem countErrors_append_error (l : List Item) (m ty : String) :
    countErrors (l ++ [Item.error m ty]) = countErrors l + 1 := by
  simp [countErrors, List.filter_append, List.filter, Item.isData]

theorem mem_map_data_isData (l : List String) :
    ∀ i ∈ l.map Item.data, i.isData = true := by
  intro i hi
  rcases List.mem_map.1 hi with ⟨s, _, rfl⟩
  rfl

end SupportCaseAgent

namespace SupportCaseAgent

/-- C1: per logical request, `run_with_retry` invokes the credential
refresh at most once and starts at most two invocation attempts; when
the second attempt fails with a credential-expired-classified error,
that failure is surfaced as a terminal error item, with exactly one
refresh and no third attempt. -/
theorem C1_at_most_one_refresh (env : Env) (issuer : Issuer) (engine : Engine)
    (c1 c2 : List String) (m1 m2 : String) (env2 : Env)
    (h1 : _run_once env engine 0 = (c1, some m1))
    (hc1 : isCredExpired m1 = true)
    (hr : refresh_token issuer env = Except.ok env2)
    (h2 : _run_once env2 engine 1 = (c2, some m2))
    (_hc2 : isCredExpired m2 = true) :
    (∀ (e : Env) (i : Issuer) (g : Engine),
      (run_with_retry e i g).refreshCalls ≤ 1 ∧
      (run_with_retry e i g).attempts ≤ 2) ∧
    (run_with_retry env issuer engine).refreshCalls = 1 ∧
    (run_with_retry env issuer engine).attempts = 2 ∧
    (run_with_retry env issuer engine).output =
      c1.map Item.data ++ c2.map Item.data ++
        [Item.error m2 "stream_error"] := by
  refine ⟨?_, ?_, ?_, ?_⟩
  · intro e i g
    unfold run_with_retry
    rcases hA : _run_once e g 0 with ⟨cA, fA⟩
    cases fA with
    | none => simp
    | some m =>
      by_cases hm : isCredExpired m = true
      · rcases hR : refresh_token i e with eR | envB
        · simp [hm, hR]
        · rcases hB : _run_once envB g 1 with ⟨cB, fB⟩
          cases fB with
          | none => simp [hm, hR, hB]
          | some mB => simp [hm, hR, hB]
      · simp [hm]
  · simp [run_with_retry, h1, hc1, hr, h2]
  · simp [run_with_retry, h1, hc1, hr, h2]
  · simp [run_with_retry, h1, hc1, hr, h2]

/-- C5: if attempt 1 fails with a credential-expired-classified error and
the refresh itself fails, the single terminal error item carries the
refresh error, no second attempt is started, and the outcome is
returned as a value (never a raised fault). -/
theorem C5_refresh_error_surfaced (env : Env) (issuer : Issuer)
    (engine : Engine) (c1 : List String) (m1 e : String)
    (h1 : _run_once env engine 0 = (c1, some m1))
    (hc1 : isCredExpired m1 = true)
    (hr : refresh_token issuer env = Except.error e) :
    (run_with_retry env issuer engine).output =
      c1.map Item.data ++ [Item.error e "stream_error"] ∧
    (run_with_retry env issuer engine).attempts = 1 ∧
    (run_with_retry env issuer engine).refreshCalls = 1 := by
  refine ⟨?_, ?_, ?_⟩ <;> simp [run_with_retry, h1, hc1, hr]

/-- C6: if attempt 1 fails with an error not classified as
credential-expired, no refresh is made, no second attempt is started,
and exactly one terminal error item carrying that error's message is
emitted. -/
theorem C6_other_failure_no_retry (env : Env) (issuer : Issuer)
    (engine : Engine) (c1 : List String) (m1 : String)
    (h1 : _run_once env engine 0 = (c1, some m1))
    (hc1 : isCredExpired m1 = false) :
    (run_with_retry env issuer engine).refreshCalls = 0 ∧
    (run_with_retry env issuer engine).attempts = 1 ∧
    (run_with_retry env issuer engine).output =
      c1.map Item.data ++ [Item.error m1 "stream_error"] ∧
    countErrors (run_with_retry env issuer engine).output = 1 := by
  have hout : (run_with_retry env issuer engine).output =
      c1.map Item.data ++ [Item.error m1 "stream_error"] := by
    simp [run_with_retry, h1, hc1]
  refine ⟨?_, ?_, hout, ?_⟩
  · simp [run_with_retry, h1, hc1]
  · simp [run_with_retry, h1, hc1]
  · rw [hout, countErrors_append_error, countErrors_map_data]

/-- C7: given a failure of attempt 1, `run_with_retry` takes the
refresh-and-retry path exactly when the error message contains the
substring "client initialization failed" compared case-insensitively;
every other failure is treated as non-credential (no refresh). -/
theorem C7_classification_by_substring (env : Env) (issuer : Issuer)
    (engine : Engine) (c1 : List String) (m1 : String)
    (h1 : _run_once env engine 0 = (c1, some m1)) :
    (run_with_retry env issuer engine).refreshCalls = 1 ↔
      containsSub "client initialization failed".toList
        (lowerStr m1).toList = true := by
  have hdef : isCredExpired m1 =
      containsSub "client initialization failed".toList
        (lowerStr m1).toList := rfl
  by_cases hm : isCredExpired m1 = true
  · rw [← hdef]
    rcases hR : refresh_token issuer env with eR | envB
    · simp [run_with_retry, h1, hm, hR]
    · rcases hB : _run_once envB engine 1 with ⟨cB, fB⟩
      cases fB with
      | none => simp [run_with_retry, h1, hm, hR, hB]
      | some mB => simp [run_with_retry, h1, hm, hR, hB]
  · rw [← hdef]
    simp [run_with_retry, h1, hm]

/-- C10: if attempt 1 yields at least one chunk before failing with a
credential-expired-classified error and the refreshed attempt 2
succeeds, the caller's output is attempt 1's delivered chunks followed
by attempt 2's entire chunk sequence (already-delivered chunks are
never retracted). -/
theorem C10_delivered_prefix_kept (env : Env) (issuer : Issuer)
    (engine : Engine) (c1 c2 : List String) (m1 : String) (env2 : Env)
    (h1 : _run_once env engine 0 = (c1, some m1))
    (_hk : 1 ≤ c1.length)
    (hc1 : isCredExpired m1 = true)
    (hr : refresh_token issuer env = Except.ok env2)
    (h2 : _run_once env2 engine 1 = (c2, none)) :
    (run_with_retry env issuer engine).output =
      c1.map Item.data ++ c2.map Item.data ∧
    (run_with_retry env issuer engine).attempts = 2 := by
  constructor <;> simp [run_with_retry, h1, hc1, hr, h2]

end SupportCaseAgent

namespace SupportCaseAgent

theorem output_shape_chunks (c : List String) :
    countErrors (c.map Item.data) ≤ 1 ∧
    ∀ i ∈ (c.map Item.data).dropLast, i.isData = true := by
  constructor
  · rw [countErrors_map_data]
    exact Nat.zero_le 1
  · intro i hi
    exact mem_map_data_isData c i ((List.dropLast_sublist _).subset hi)

theorem output_shape_chunks_err (c : List String) (m ty : String) :
    countErrors (c.map Item.data ++ [Item.error m ty]) ≤ 1 ∧
    ∀ i ∈ (c.map Item.data ++ [Item.error m ty]).dropLast, i.isData = true := by
  constructor
  · rw [countErrors_append_error, countErrors_map_data]
  · intro i hi
    rw [List.dropLast_concat] at hi
    exact mem_map_data_isData c i hi

theorem run_output_shape (env : Env) (issuer : Issuer) (engine : Engine) :
    (∃ c : List String,
      (run_with_retry env issuer engine).output = c.map Item.data) ∨
    (∃ (c : List String) (m ty : String),
      (run_with_retry env issuer engine).output =
        c.map Item.data ++ [Item.error m ty]) := by
  unfold run_with_retry
  rcases hA : _run_once env engine 0 with ⟨cA, fA⟩
  cases fA with
  | none => exact Or.inl ⟨cA, by simp⟩
  | some m =>
    by_cases hm : isCredExpired m = true
    · rcases hR : refresh_token issuer env with eR | envB
      · exact Or.inr ⟨cA, eR, "stream_error", by simp [hm, hR]⟩
      · rcases hB : _run_once envB engine 1 with ⟨cB, fB⟩
        cases fB with
        | none =>
          exact Or.inl ⟨cA ++ cB, by simp [hm, hR, hB, List.map_append]⟩
        | some mB =>
          exact Or.inr ⟨cA ++ cB, mB, "stream_error",
            by simp [hm, hR, hB, List.map_append]⟩
    · exact Or.inr ⟨cA, m, "stream_error", by simp [hm]⟩

end SupportCaseAgent

namespace SupportCaseAgent

/-- The output shape claimed by the spec for C9: either a finite
non-empty sequence of successful content chunks with no terminal-error
item, or exactly one terminal error item. -/
def specWholeStreamShape (out : List Item) : Prop :=
  (out ≠ [] ∧ ∀ i ∈ out, i.isData = true) ∨
  ∃ m ty, out = [Item.error m ty]

/-- A well-formed environment used for concrete runs. -/
def envC9 : Env :=
  { region := "us-east-1"
    agent_arn := some "arn:aws:bedrock-agentcore:us-east-1:123456789012:runtime/agent"
    secret := some [("bearer_token", JVal.str "tok")] }

/-- An engine whose attempt succeeds while yielding no data chunks
(`agent.stream_async` produced no event carrying a "data" key). -/
def engineEmptySuccess : Engine := fun _ _ => { chunks := [], failure := none }

/-- A token issuer that always issues the token "tok2". -/
def issuerStatic : Issuer := fun _ _ _ => Except.ok "tok2"

/-- C9 counterexample: a successful attempt that yields no data chunks
makes `run_with_retry` deliver a silently empty output — neither a
non-empty chunk sequence nor a terminal error item, refuting the
claimed output shape. -/
theorem C9_counterexample :
    (run_with_retry envC9 issuerStatic engineEmptySuccess).output = [] ∧
    ¬ specWholeStreamShape
        (run_with_retry envC9 issuerStatic engineEmptySuccess).output := by
  have h : (run_with_retry envC9 issuerStatic engineEmptySuccess).output = [] :=
    rfl
  refine ⟨h, ?_⟩
  rw [h]
  rintro (⟨hne, _⟩ | ⟨m, ty, habs⟩)
  · exact hne rfl
  · exact List.noConfusion habs

/-- C9 amended: the caller's output is always the chunks delivered
before any failure followed by at most one terminal error item; an
error item can only occur as the final element, and a fully successful
run may be empty. -/
theorem C9_amended_output_shape (env : Env) (issuer : Issuer)
    (engine : Engine) :
    countErrors (run_with_retry env issuer engine).output ≤ 1 ∧
    ∀ i ∈ (run_with_retry env issuer engine).output.dropLast,
      i.isData = true := by
  rcases run_output_shape env issuer engine with ⟨c, hc⟩ | ⟨c, m, ty, hc⟩
  · rw [hc]
    exact output_shape_chunks c
  · rw [hc]
    exact output_shape_chunks_err c m ty

end SupportCaseAgent

namespace SupportCaseAgent

theorem transport_auth_of_bearer (env : Env) (arn : String)
    (doc : List (String × JVal)) (tok : String)
    (harn : env.agent_arn = some arn) (hsec : env.secret = some doc)
    (htok : jlookupStr doc "bearer_token" = some tok) :
    ∃ t, create_streamable_http_transport env = Except.ok t ∧
      t.authorization = "Bearer " ++ tok := by
  simp only [create_streamable_http_transport, harn, hsec, htok]
  exact ⟨_, rfl, rfl⟩

/-- C2: the transport descriptor is rebuilt for every attempt from the
secret store's current bearer token; if attempt 1 fails with a
credential-expired classification and the refresh stores a new token,
attempt 2's Authorization header carries the new token, which differs
from attempt 1's header whenever the token changed. -/
theorem C2_fresh_token_per_attempt (env : Env) (issuer : Issuer)
    (engine : Engine) (doc ap : List (String × JVal))
    (arn tok1 cid user pass tok2 : String)
    (c1 : List String) (m1 : String)
    (harn : env.agent_arn = some arn)
    (hsec : env.secret = some doc)
    (htok : jlookupStr doc "bearer_token" = some tok1)
    (hcid : jlookupStr doc "client_id" = some cid)
    (hap : jlookup doc "AuthParameters" = some (JVal.obj ap))
    (hu : jlookupStr ap "USERNAME" = some user)
    (hp : jlookupStr ap "PASSWORD" = some pass)
    (hiss : issuer cid user pass = Except.ok tok2)
    (h1 : _run_once env engine 0 = (c1, some m1))
    (hc1 : isCredExpired m1 = true) :
    ∃ t1 t2, (run_with_retry env issuer engine).transports = [t1, t2] ∧
      t1.authorization = "Bearer " ++ tok1 ∧
      t2.authorization = "Bearer " ++ tok2 ∧
      (tok2 ≠ tok1 → t2.authorization ≠ t1.authorization) := by
  have hr : refresh_token issuer env = Except.ok
      { env with secret := some (jset doc "bearer_token" (JVal.str tok2)) } := by
    simp only [refresh_token, hsec, hcid, hap, hu, hp, hiss]
  set env2 : Env :=
    { env with secret := some (jset doc "bearer_token" (JVal.str tok2)) } with henv2
  have htok2 : jlookupStr (jset doc "bearer_token" (JVal.str tok2))
      "bearer_token" = some tok2 := by
    simp only [jlookupStr, jlookup_jset_self]
  obtain ⟨t1, ht1, ha1⟩ := transport_auth_of_bearer env arn doc tok1 harn hsec htok
  obtain ⟨t2, ht2, ha2⟩ := transport_auth_of_bearer env2 arn
    (jset doc "bearer_token" (JVal.str tok2)) tok2 harn rfl htok2
  have hne : tok2 ≠ tok1 → t2.authorization ≠ t1.authorization := by
    intro hdiff heq
    apply hdiff
    rw [ha1, ha2] at heq
    have hd := congrArg String.data heq
    rw [String.data_append, String.data_append] at hd
    exact String.ext (List.append_cancel_left hd)
  have htr : (run_with_retry env issuer engine).transports = [t1, t2] := by
    unfold run_with_retry
    rw [h1]
    rcases hB : _run_once env2 engine 1 with ⟨cB, fB⟩
    cases fB with
    | none => simp [hc1, hr, hB, attemptTransport, ht1, ht2]
    | some mB => simp [hc1, hr, hB, attemptTransport, ht1, ht2]
  exact ⟨t1, t2, htr, ha1, ha2, hne⟩

/-- C8: a successful `refresh_token` rewrites the stored document
wholesale with `bearer_token` replaced by the newly issued token while
every other field (in particular `client_id` and the `AuthParameters`
credentials used) is carried over unchanged. -/
theorem C8_refresh_overwrites_only_bearer (issuer : Issuer) (env : Env)
    (doc : List (String × JVal)) (env2 : Env)
    (hsec : env.secret = some doc)
    (hr : refresh_token issuer env = Except.ok env2) :
    ∃ (cid user pass : String) (ap : List (String × JVal)) (tok : String),
      jlookupStr doc "client_id" = some cid ∧
      jlookup doc "AuthParameters" = some (JVal.obj ap) ∧
      jlookupStr ap "USERNAME" = some user ∧
      jlookupStr ap "PASSWORD" = some pass ∧
      issuer cid user pass = Except.ok tok ∧
      env2 = { env with
        secret := some (jset doc "bearer_token" (JVal.str tok)) } ∧
      jlookup (jset doc "bearer_token" (JVal.str tok)) "bearer_token" =
        some (JVal.str tok) ∧
      (∀ k, k ≠ "bearer_token" →
        jlookup (jset doc "bearer_token" (JVal.str tok)) k =
          jlookup doc k) := by
  unfold refresh_token at hr
  simp only [hsec] at hr
  cases hcid : jlookupStr doc "client_id" with
  | none => simp only [hcid] at hr; exact Except.noConfusion hr
  | some cid =>
  simp only [hcid] at hr
  cases hap : jlookup doc "AuthParameters" with
  | none => simp only [hap] at hr; exact Except.noConfusion hr
  | some apv =>
  simp only [hap] at hr
  cases apv with
  | str s => exact Except.noConfusion hr
  | arr xs => exact Except.noConfusion hr
  | obj ap =>
  cases hu : jlookupStr ap "USERNAME" with
  | none => simp only [hu] at hr; exact Except.noConfusion hr
  | some user =>
  cases hp : jlookupStr ap "PASSWORD" with
  | none => simp only [hu, hp] at hr; exact Except.noConfusion hr
  | some pass =>
  simp only [hu, hp] at hr
  cases hiss : issuer cid user pass with
  | error e => simp only [hiss] at hr; exact Except.noConfusion hr
  | ok tok =>
  simp only [hiss] at hr
  injection hr with hinj
  refine ⟨cid, user, pass, ap, tok, rfl, rfl, hu, hp, hiss, hinj.symm, ?_, ?_⟩
  · exact jlookup_jset_self doc "bearer_token" (JVal.str tok)
  · intro k hk
    exact jlookup_jset_ne doc "bearer_token" k (JVal.str tok) hk

end SupportCaseAgent

namespace SupportCaseAgent

/-- A pre-existing role holding an operator-authored inline policy, used
to exercise the already-exists paths of the reconcilers. -/
def preExistingRole : Iam.Role :=
  { arn := Iam.arnOf "123456789012" (roleNameOf "mcpagent")
    assume_policy := JVal.str "legacy-trust"
    inline_policies := [("OperatorPolicy", JVal.str "operator-edits")]
    attached_managed := [] }

/-- An IAM store in which the reconciler's target role already exists. -/
def stExisting : Iam.State :=
  { roles := [(roleNameOf "mcpagent", preExistingRole)] }

/-- C3 counterexample: in the MCP variant
(src/MCP/aws_setup.py `create_agentcore_role`), an already-existing role
is NOT re-fetched: its inline policies are deleted and the role is
recreated, so the pre-existing role's policy ("OperatorPolicy") is
destroyed — the surviving policy list is exactly the freshly written
["AgentCorePolicy"]. -/
theorem C3_counterexample :
    Iam.list_role_policies stExisting (roleNameOf "mcpagent")
        McpSetup.MAX_POLICIES_TO_LIST = ["OperatorPolicy"] ∧
    (McpSetup.create_agentcore_role stExisting "us-west-2" "123456789012"
        "mcpagent").map
      (fun p => Iam.list_role_policies p.1 (roleNameOf "mcpagent")
        McpSetup.MAX_POLICIES_TO_LIST) =
      Except.ok ["AgentCorePolicy"] ∧
    ("AgentCorePolicy" : String) ≠ "OperatorPolicy" := by
  refine ⟨rfl, rfl, ?_⟩
  decide

/-- C4 counterexample: in the MCP variant, when `get_or_create_role`
finds an existing role it returns immediately with the store unchanged —
the desired inline policy (named `AgentCorePolicy`) is never written, so
step 3 does not run on the found path. -/
theorem C4_counterexample :
    McpSetup.get_or_create_role stExisting "us-west-2" "123456789012"
        "mcpagent" =
      Except.ok (stExisting, preExistingRole.arn) ∧
    jlookup preExistingRole.inline_policies McpSetup.POLICY_NAME = none := by
  exact ⟨rfl, rfl⟩

end SupportCaseAgent

namespace SupportCaseAgent

theorem get_role_lookup (st : Iam.State) (n : String) (role : Iam.Role)
    (h : Iam.get_role st n = Except.ok role) :
    lookupKey st.roles n = some role := by
  unfold Iam.get_role at h
  cases hl : lookupKey st.roles n with
  | none => rw [hl] at h; exact Except.noConfusion h
  | some r =>
    rw [hl] at h
    injection h with h2
    rw [h2]

theorem lookup_fold_delete_all (names : List String) (s : Iam.State)
    (n : String) (r : Iam.Role)
    (hs : lookupKey s.roles n = some r)
    (hcov : ∀ p ∈ r.inline_policies, p.1 ∈ names) :
    lookupKey (names.foldl
      (fun acc pn => Iam.delete_role_policy acc n pn) s).roles n =
      some { r with inline_policies := [] } := by
  induction names generalizing s r with
  | nil =>
    have hnil : r.inline_policies = [] := by
      cases hrp : r.inline_policies with
      | nil => rfl
      | cons p t =>
        exact absurd (hcov p (by rw [hrp]; exact List.mem_cons_self p t))
          (List.not_mem_nil p.1)
    rw [List.foldl_nil, hs]
    rcases r with ⟨a, ap, ip, am⟩
    simp only at hnil
    rw [hnil]
  | cons pn rest ih =>
    rw [List.foldl_cons]
    have h1 : lookupKey (Iam.delete_role_policy s n pn).roles n =
        some { r with inline_policies :=
          r.inline_policies.filter fun p => p.1 ≠ pn } := by
      unfold Iam.delete_role_policy
      rw [lookup_updateRole, hs]
      rfl
    have hcov2 : ∀ p ∈ r.inline_policies.filter (fun p => p.1 ≠ pn),
        p.1 ∈ rest := by
      intro p hp
      rcases List.mem_filter.1 hp with ⟨hpm, hpne⟩
      rcases List.mem_cons.1 (hcov p hpm) with heq | hmem
      · exact absurd heq (by simpa using hpne)
      · exact hmem
    exact ih (Iam.delete_role_policy s n pn)
      { r with inline_policies := r.inline_policies.filter fun p => p.1 ≠ pn }
      h1 hcov2

theorem lookup_fold_delete_some (names : List String) (s : Iam.State)
    (n : String) (r : Iam.Role) (hs : lookupKey s.roles n = some r) :
    ∃ r', lookupKey (names.foldl
        (fun acc pn => Iam.delete_role_policy acc n pn) s).roles n =
      some r' ∧ r'.attached_managed = r.attached_managed := by
  induction names generalizing s r with
  | nil =>
    rw [List.foldl_nil]
    exact ⟨r, hs, rfl⟩
  | cons pn rest ih =>
    rw [List.foldl_cons]
    have h1 : lookupKey (Iam.delete_role_policy s n pn).roles n =
        some { r with inline_policies :=
          r.inline_policies.filter fun p => p.1 ≠ pn } := by
      unfold Iam.delete_role_policy
      rw [lookup_updateRole, hs]
      rfl
    obtain ⟨r', hr', ham⟩ := ih (Iam.delete_role_policy s n pn) _ h1
    exact ⟨r', hr', ham⟩

theorem cleanup_ok_of_small (st : Iam.State) (n : String) (r : Iam.Role)
    (hlk : lookupKey st.roles n = some r)
    (hm : r.attached_managed = [])
    (hlen : r.inline_policies.length ≤ McpSetup.MAX_POLICIES_TO_LIST) :
    ∃ st0, McpSetup._cleanup_existing_role st n = Except.ok st0 ∧
      lookupKey st0.roles n = none := by
  have htake : (r.inline_policies.map Prod.fst).take
      McpSetup.MAX_POLICIES_TO_LIST = r.inline_policies.map Prod.fst := by
    apply List.take_of_length_le
    simpa using hlen
  have hfold := lookup_fold_delete_all (r.inline_policies.map Prod.fst) st n r
    hlk (fun p hp => List.mem_map_of_mem Prod.fst hp)
  unfold McpSetup._cleanup_existing_role Iam.list_role_policies
  simp only [hlk, htake]
  unfold Iam.delete_role
  simp only [hfold, hm, List.isEmpty_nil, Bool.and_self, ite_true]
  exact ⟨_, rfl, lookupKey_filter_ne _ _⟩

theorem cleanup_conflict_of_attached (st : Iam.State) (n : String)
    (r : Iam.Role) (hlk : lookupKey st.roles n = some r)
    (hm : r.attached_managed ≠ []) :
    McpSetup._cleanup_existing_role st n =
      Except.error "DeleteConflict" := by
  obtain ⟨r', hr', ham⟩ := lookup_fold_delete_some
    (Iam.list_role_policies st n McpSetup.MAX_POLICIES_TO_LIST) st n r hlk
  have hcond : (r'.inline_policies.isEmpty &&
      r'.attached_managed.isEmpty) = false := by
    have h2 : r'.attached_managed.isEmpty = false := by
      rw [ham]
      cases hma : r.attached_managed with
      | nil => exact absurd hma hm
      | cons a t => rfl
    rw [h2, Bool.and_false]
  unfold McpSetup._cleanup_existing_role Iam.delete_role
  simp only [hr', hcond, Bool.false_eq_true, ite_false]

/-- C3 amended: when role creation hits "already exists", the Agent
variant re-fetches the existing role and succeeds with the store
untouched. The MCP variant instead deletes the listed inline policies
and the role itself and recreates it: this completes successfully with
a valid identifier when the pre-existing role has no attached managed
policies and at most `MAX_POLICIES_TO_LIST` inline policies, but a role
with an attached managed policy — the state this script itself
converges to via `AWSSupportAccess` — makes the role deletion raise
`DeleteConflict`, which propagates uncaught out of
`create_agentcore_role`. -/
theorem C3_amended_already_exists (st : Iam.State)
    (region account_id agent_name : String) (role : Iam.Role)
    (h : Iam.get_role st (roleNameOf agent_name) = Except.ok role) :
    AgentSetup.create_agentcore_role st region account_id agent_name =
      Except.ok (st, role) ∧
    (role.attached_managed = [] ∧
        role.inline_policies.length ≤ McpSetup.MAX_POLICIES_TO_LIST →
      ∃ st' role',
        McpSetup.create_agentcore_role st region account_id agent_name =
          Except.ok (st', role') ∧
        role'.arn = Iam.arnOf account_id (roleNameOf agent_name)) ∧
    (role.attached_managed ≠ [] →
      McpSetup.create_agentcore_role st region account_id agent_name =
        Except.error "DeleteConflict") := by
  have hlk := get_role_lookup st (roleNameOf agent_name) role h
  refine ⟨?_, ?_, ?_⟩
  · unfold AgentSetup.create_agentcore_role
    simp only [Iam.create_role, hlk, h, ite_true]
  · rintro ⟨hm, hlen⟩
    obtain ⟨st0, hclean, hdel⟩ := cleanup_ok_of_small st
      (roleNameOf agent_name) role hlk hm hlen
    unfold McpSetup.create_agentcore_role
    simp only [Iam.create_role, hlk, hclean, hdel, ite_true,
      Iam.put_role_policy, lookupKey, McpSetup._add_managed_policy_to_role,
      Iam.get_role, lookup_updateRole]
    simp
    exact ⟨_, _, ⟨rfl, rfl⟩, rfl⟩
  · intro hm
    have hclean := cleanup_conflict_of_attached st (roleNameOf agent_name)
      role hlk hm
    unfold McpSetup.create_agentcore_role
    simp only [Iam.create_role, hlk, hclean]

/-- C4 amended: when the role lookup finds an existing role, the Agent
variant still writes the desired inline policy document wholesale onto
the role before returning its ARN, but the MCP variant returns the ARN
with the store unchanged (the policy write happens only on the create
path). -/
theorem C4_amended_policy_write (st : Iam.State)
    (region account_id agent_name : String) (role : Iam.Role)
    (h : Iam.get_role st (roleNameOf agent_name) = Except.ok role) :
    (∃ st2, AgentSetup.get_or_create_role st region account_id agent_name =
        Except.ok (st2, role.arn) ∧
      ∃ role2, Iam.get_role st2 (roleNameOf agent_name) = Except.ok role2 ∧
        jlookup role2.inline_policies ("AgentExecutionPolicy-" ++ agent_name) =
          some (AgentSetup.getRolePolicy region account_id agent_name)) ∧
    McpSetup.get_or_create_role st region account_id agent_name =
      Except.ok (st, role.arn) := by
  have hlk := get_role_lookup st (roleNameOf agent_name) role h
  constructor
  · unfold AgentSetup.get_or_create_role AgentSetup.get_existing_role_arn
    simp only [h, AgentSetup.ensure_role_policy_updated, Iam.put_role_policy,
      hlk]
    refine ⟨_, rfl, ?_⟩
    simp only [Iam.get_role, lookup_updateRole, hlk, Option.map_some]
    exact ⟨_, rfl, jlookup_jset_self _ _ _⟩
  · unfold McpSetup.get_or_create_role McpSetup.get_existing_role_arn
    simp only [h]

end SupportCaseAgent

namespace SupportCaseAgent

/-- Auth parameters stored in the concrete credential bundle. -/
def apW : List (String × JVal) :=
  [("USERNAME", JVal.str "testuser"), ("PASSWORD", JVal.str "MyPassword123!")]

/-- A concrete credential-bundle document as stored under the secret key. -/
def docW : List (String × JVal) :=
  [("client_id", JVal.str "cid123"), ("AuthParameters", JVal.obj apW),
   ("bearer_token", JVal.str "tok1")]

/-- A concrete agent runtime ARN. -/
def arnW : String :=
  "arn:aws:bedrock-agentcore:us-east-1:123456789012:runtime/sca-abc"

/-- A concrete well-formed environment. -/
def envW : Env :=
  { region := "us-east-1", agent_arn := some arnW, secret := some docW }

/-- The environment after a successful refresh stored token "tok2". -/
def envW2 : Env :=
  { envW with secret := some (jset docW "bearer_token" (JVal.str "tok2")) }

/-- An issuer that rejects the stored credentials. -/
def issuerReject : Issuer := fun _ _ _ =>
  Except.error "NotAuthorizedException: Incorrect username or password."

/-- An engine for which both attempts fail with the initialization
message the classifier matches. -/
def engineFailBoth : Engine := fun _ _ =>
  { chunks := ["partial"], failure := some "Client initialization failed" }

/-- An engine failing with a non-credential error. -/
def engineOtherFail : Engine := fun _ _ =>
  { chunks := ["x"], failure := some "boom" }

/-- An engine whose first attempt fails after one chunk with the
initialization message and whose second attempt succeeds. -/
def engineFailThenOk : Engine := fun i _ =>
  if i = 0 then
    { chunks := ["a"], failure := some "Client initialization failed" }
  else { chunks := ["b", "c"], failure := none }

theorem C1_witness :
    (∀ (e : Env) (i : Issuer) (g : Engine),
      (run_with_retry e i g).refreshCalls ≤ 1 ∧
      (run_with_retry e i g).attempts ≤ 2) ∧
    (run_with_retry envW issuerStatic engineFailBoth).refreshCalls = 1 ∧
    (run_with_retry envW issuerStatic engineFailBoth).attempts = 2 ∧
    (run_with_retry envW issuerStatic engineFailBoth).output =
      (["partial"] : List String).map Item.data ++
        (["partial"] : List String).map Item.data ++
        [Item.error "Client initialization failed" "stream_error"] :=
  C1_at_most_one_refresh envW issuerStatic engineFailBoth
    ["partial"] ["partial"]
    "Client initialization failed" "Client initialization failed" envW2
    rfl rfl rfl rfl rfl

theorem C2_witness :
    ∃ t1 t2,
      (run_with_retry envW issuerStatic engineFailBoth).transports =
        [t1, t2] ∧
      t1.authorization = "Bearer " ++ "tok1" ∧
      t2.authorization = "Bearer " ++ "tok2" ∧
      (("tok2" : String) ≠ "tok1" →
        t2.authorization ≠ t1.authorization) :=
  C2_fresh_token_per_attempt envW issuerStatic engineFailBoth docW apW
    arnW "tok1" "cid123" "testuser" "MyPassword123!" "tok2" ["partial"]
    "Client initialization failed"
    rfl rfl rfl rfl rfl rfl rfl rfl rfl rfl

theorem C5_witness :
    (run_with_retry envW issuerReject engineFailBoth).output =
      (["partial"] : List String).map Item.data ++
        [Item.error
          "NotAuthorizedException: Incorrect username or password."
          "stream_error"] ∧
    (run_with_retry envW issuerReject engineFailBoth).attempts = 1 ∧
    (run_with_retry envW issuerReject engineFailBoth).refreshCalls = 1 :=
  C5_refresh_error_surfaced envW issuerReject engineFailBoth ["partial"]
    "Client initialization failed"
    "NotAuthorizedException: Incorrect username or password."
    rfl rfl rfl

theorem C6_witness :
    (run_with_retry envW issuerStatic engineOtherFail).refreshCalls = 0 ∧
    (run_with_retry envW issuerStatic engineOtherFail).attempts = 1 ∧
    (run_with_retry envW issuerStatic engineOtherFail).output =
      (["x"] : List String).map Item.data ++
        [Item.error "boom" "stream_error"] ∧
    countErrors (run_with_retry envW issuerStatic engineOtherFail).output =
      1 :=
  C6_other_failure_no_retry envW issuerStatic engineOtherFail ["x"] "boom"
    rfl rfl

theorem C7_witness :
    (run_with_retry envW issuerStatic engineOtherFail).refreshCalls = 1 ↔
      containsSub "client initialization failed".toList
        (lowerStr "boom").toList = true :=
  C7_classification_by_substring envW issuerStatic engineOtherFail ["x"]
    "boom" rfl

theorem C8_witness :
    ∃ (cid user pass : String) (ap : List (String × JVal)) (tok : String),
      jlookupStr docW "client_id" = some cid ∧
      jlookup docW "AuthParameters" = some (JVal.obj ap) ∧
      jlookupStr ap "USERNAME" = some user ∧
      jlookupStr ap "PASSWORD" = some pass ∧
      issuerStatic cid user pass = Except.ok tok ∧
      envW2 = { envW with
        secret := some (jset docW "bearer_token" (JVal.str tok)) } ∧
      jlookup (jset docW "bearer_token" (JVal.str tok)) "bearer_token" =
        some (JVal.str tok) ∧
      (∀ k, k ≠ "bearer_token" →
        jlookup (jset docW "bearer_token" (JVal.str tok)) k =
          jlookup docW k) :=
  C8_refresh_overwrites_only_bearer issuerStatic envW docW envW2 rfl rfl

theorem C10_witness :
    (run_with_retry envW issuerStatic engineFailThenOk).output =
      (["a"] : List String).map Item.data ++
        (["b", "c"] : List String).map Item.data ∧
    (run_with_retry envW issuerStatic engineFailThenOk).attempts = 2 :=
  C10_delivered_prefix_kept envW issuerStatic engineFailThenOk
    ["a"] ["b", "c"] "Client initialization failed" envW2
    rfl (by decide) rfl rfl rfl

theorem C3_witness :
    AgentSetup.create_agentcore_role stExisting "us-west-2" "123456789012"
        "mcpagent" =
      Except.ok (stExisting, preExistingRole) ∧
    (preExistingRole.attached_managed = [] ∧
        preExistingRole.inline_policies.length ≤
          McpSetup.MAX_POLICIES_TO_LIST →
      ∃ st' role',
        McpSetup.create_agentcore_role stExisting "us-west-2" "123456789012"
            "mcpagent" =
          Except.ok (st', role') ∧
        role'.arn = Iam.arnOf "123456789012" (roleNameOf "mcpagent")) ∧
    (preExistingRole.attached_managed ≠ [] →
      McpSetup.create_agentcore_role stExisting "us-west-2" "123456789012"
          "mcpagent" =
        Except.error "DeleteConflict") :=
  C3_amended_already_exists stExisting "us-west-2" "123456789012" "mcpagent"
    preExistingRole rfl

theorem C4_witness :
    (∃ st2, AgentSetup.get_or_create_role stExisting "us-west-2"
        "123456789012" "mcpagent" =
        Except.ok (st2, preExistingRole.arn) ∧
      ∃ role2, Iam.get_role st2 (roleNameOf "mcpagent") = Except.ok role2 ∧
        jlookup role2.inline_policies ("AgentExecutionPolicy-" ++ "mcpagent") =
          some (AgentSetup.getRolePolicy "us-west-2" "123456789012"
            "mcpagent")) ∧
    McpSetup.get_or_create_role stExisting "us-west-2" "123456789012"
        "mcpagent" =
      Except.ok (stExisting, preExistingRole.arn) :=
  C4_amended_policy_write stExisting "us-west-2" "123456789012" "mcpagent"
    preExistingRole rfl

end SupportCaseAgent
